import Mathlib

/-!
Verification of the request-execution core of `axios-retry-client`
(src/axios-retry-client.ts): retry-policy resolution, backoff delay
computation, lifecycle hooks, the request pipeline, and error
classification.  JavaScript runtime values reaching the code under
verification are modelled by a small universe `JsValue` with JS
truthiness; objects are own-property association lists.  Thrown
errors are modelled explicitly (`ThrownError`), and the `cause`
option of an `Error` records whether the original error object or
its string rendering was supplied (`CauseVal`).
-/

/-- A JavaScript runtime value, as far as the client code inspects one:
`undefined`, `null`, booleans, (integer) numbers, strings and plain
objects given by their own enumerable properties. -/
inductive JsValue where
  | undefined
  | null
  | jbool (b : Bool)
  | jnum (n : Int)
  | jstr (s : String)
  | jobj (fields : List (String × JsValue))

namespace JsValue

/-- JS truthiness: `undefined`, `null`, `false`, `0` and `""` are falsy,
every other value (objects included) is truthy. -/
def truthy : JsValue → Bool
  | .undefined => false
  | .null => false
  | .jbool b => b
  | .jnum n => n != 0
  | .jstr s => s ≠ ""
  | .jobj _ => true

/-- Property access `v.k` for the guarded accesses the client performs:
looks up an own property on an object, `undefined` otherwise.  (The
client only dereferences values it has established to be truthy, or
uses optional chaining, so the null/undefined TypeError cases of real
JS are unreachable in the translated paths.) -/
def get (v : JsValue) (k : String) : JsValue :=
  match v with
  | .jobj fields =>
    match fields.lookup k with
    | some w => w
    | none => .undefined
  | _ => .undefined

/-- Whether `v` is `null` or `undefined` (the values the `??` operator
treats as absent). -/
def isNullish : JsValue → Bool
  | .undefined => true
  | .null => true
  | _ => false

/-- Whether `v.toString` is callable, i.e. truthy.  Ordinary objects,
strings, numbers and booleans inherit `toString` from their prototype;
an own `toString` property shadows it; `null`/`undefined` have none. -/
def hasToString : JsValue → Bool
  | .undefined => false
  | .null => false
  | .jobj fields =>
    match fields.lookup "toString" with
    | some w => truthy w
    | none => true
  | _ => true

/-- Template-literal rendering `${v}` of a value, as used when the
client builds error messages. -/
def display : JsValue → String
  | .undefined => "undefined"
  | .null => "null"
  | .jbool b => if b then "true" else "false"
  | .jnum n => toString n
  | .jstr s => s
  | .jobj _ => "[object Object]"

end JsValue

/-- HTTP verbs of the client (the `RequestType` enum of the source). -/
inductive RequestType where
  | GET
  | POST
  | PUT
  | PATCH
  | DELETE
deriving DecidableEq, Repr

/-- String value of a `RequestType` member (the enum is string-valued in
the source, so template literals embed these strings). -/
def RequestType.str : RequestType → String
  | .GET => "GET"
  | .POST => "POST"
  | .PUT => "PUT"
  | .PATCH => "PATCH"
  | .DELETE => "DELETE"

/-- Identity of a `retryDelay` function value stored in a retry config:
either the closure the constructor builds over `(backoff, delayFactor)`,
the closure `_request` builds when a per-call override carries `backoff`
or `delayFactor` (its captured values are the truthy-or of override and
client values, hence `Option`s), or an arbitrary user-supplied function. -/
inductive RetryDelayFn where
  | clientDefault (backoff : String) (delayFactor : Nat)
  | overrideClosure (backoff : Option String) (delayFactor : Option Nat)
  | user (id : Nat)
deriving DecidableEq, Repr

/-- Identity of an `onRetry` callback value: the constructor's default
logging closure (capturing the client name) or a user-supplied function. -/
inductive OnRetryFn where
  | clientDefault (name : String)
  | user (id : Nat)
deriving DecidableEq, Repr

/-- An `AxiosRetryClientRetryConfig` object: own properties of a retry
config, `none` meaning the property is absent.  Function-valued
properties are represented by their identity (`RetryDelayFn`,
`OnRetryFn`). -/
structure RetryConfigData where
  retries : Option Nat
  retryDelay : Option RetryDelayFn
  onRetry : Option OnRetryFn
  delayFactor : Option Nat
  backoff : Option String
deriving DecidableEq, Repr

/-- Empty retry config object (no own properties). -/
def RetryConfigData.empty : RetryConfigData :=
  { retries := none, retryDelay := none, onRetry := none,
    delayFactor := none, backoff := none }

/-- JS object-spread on one property: the override's property wins when
present, otherwise the default's survives. -/
def overrideField {α : Type} (dv ov : Option α) : Option α :=
  match ov with
  | some v => some v
  | none => dv

/-- JS object spread `{ ...d, ...o }` on retry configs: every own
property of `o` replaces the corresponding property of `d`; properties
`o` lacks keep `d`'s value. -/
def mergeSpread (d o : RetryConfigData) : RetryConfigData :=
  { retries := overrideField d.retries o.retries,
    retryDelay := overrideField d.retryDelay o.retryDelay,
    onRetry := overrideField d.onRetry o.onRetry,
    delayFactor := overrideField d.delayFactor o.delayFactor,
    backoff := overrideField d.backoff o.backoff }

/-- JS truthy-or `a || b` on an optional string property (`""` is falsy). -/
def jsOrStr (a b : Option String) : Option String :=
  match a with
  | some s => if s ≠ "" then some s else b
  | none => b

/-- JS truthy-or `a || b` on an optional numeric property (`0` is falsy). -/
def jsOrNum (a b : Option Nat) : Option Nat :=
  match a with
  | some n => if n ≠ 0 then some n else b
  | none => b

/-- JS truthiness of an optional string property. -/
def truthyOptStr : Option String → Bool
  | some s => s ≠ ""
  | none => false

/-- JS truthiness of an optional numeric property. -/
def truthyOptNum : Option Nat → Bool
  | some n => n ≠ 0
  | none => false

/-- The caller-supplied `AxiosRetryClientOptions` object (own properties;
`none` = property absent; `baseURL` is required by the type). -/
structure AxiosRetryClientOptions where
  baseURL : String
  axiosConfig : Option JsValue
  debug : Option Bool
  debugLevel : Option String
  name : Option String
  retryConfig : Option RetryConfigData

/-- The state of a constructed `AxiosRetryClient` instance: the fields the
constructor assigns to `this`. -/
structure ClientState where
  baseURL : String
  axiosConfig : JsValue
  debug : Bool
  debugLevel : String
  name : String
  retryConfig : RetryConfigData

/-- The `AxiosRetryClient` constructor (source lines 69-121).  Returns the
constructed instance state together with the caller's options object as it
is left after the constructor ran: `delete config.retryConfig` removes the
`retryConfig` property from the caller's object, and the later
`config = { ...defaults, ...config }` rebinds the local variable to a fresh
object, leaving the caller's object otherwise untouched. -/
def AxiosRetryClient.construct (config : AxiosRetryClientOptions) :
    ClientState × AxiosRetryClientOptions :=
  let backoff : String :=
    match config.retryConfig with
    | some rc =>
      match rc.backoff with
      | some b => if b ≠ "" then b else "exponential"
      | none => "exponential"
    | none => "exponential"
  let delayFactor : Nat :=
    match config.retryConfig with
    | some rc =>
      match rc.delayFactor with
      | some d => if d ≠ 0 then d else 500
      | none => 500
    | none => 500
  let name : String :=
    match config.name with
    | some s => if s ≠ "" then s else "AxiosRetryClient"
    | none => "AxiosRetryClient"
  let defaultRetryConfig : RetryConfigData :=
    { retries := some 0,
      retryDelay := some (RetryDelayFn.clientDefault backoff delayFactor),
      onRetry := some (OnRetryFn.clientDefault name),
      delayFactor := some delayFactor,
      backoff := some backoff }
  let retryConfig : RetryConfigData :=
    match config.retryConfig with
    | some rc => mergeSpread defaultRetryConfig rc
    | none => defaultRetryConfig
  let callerObject : AxiosRetryClientOptions := { config with retryConfig := none }
  let cfgAxiosConfig : JsValue :=
    match callerObject.axiosConfig with
    | some v => v
    | none => JsValue.jobj []
  let cfgRetryConfig : RetryConfigData :=
    match callerObject.retryConfig with
    | some rc => rc
    | none => retryConfig
  let cfgDebug : Bool :=
    match callerObject.debug with
    | some b => b
    | none => false
  let cfgDebugLevel : String :=
    match callerObject.debugLevel with
    | some l => l
    | none => "normal"
  let cfgName : String :=
    match callerObject.name with
    | some s => s
    | none => name
  ({ baseURL := callerObject.baseURL,
     axiosConfig := cfgAxiosConfig,
     debug := cfgDebug,
     debugLevel := cfgDebugLevel,
     name := cfgName,
     retryConfig := cfgRetryConfig },
   callerObject)

/-- Modelled from the spec: `exponentialDelay` of the external
`axios-retry` package (a dependency of this repository, imported by the
source but not present under src/).  Per the spec it computes
`factor * 2^(attempt-1)` and is deterministic and side-effect-free. -/
def exponentialDelay (retryCount : Nat) (_error : JsValue) (delayFactor : Nat) : Nat :=
  delayFactor * 2 ^ (retryCount - 1)

/-- Modelled from the spec: `linearDelay` of the external `axios-retry`
package (not present under src/).  Per the spec the linear backoff is
`factor * attempt`, deterministic and side-effect-free. -/
def linearDelay (delayFactor : Nat) : Nat → JsValue → Nat :=
  fun retryCount _error => delayFactor * retryCount

/-- The ambient mutable world an impure delay computation would consume,
modelled as a stream of pseudo-random numbers (a jittered backoff would
draw from it).  The translated code threads it through unchanged. -/
def World : Type := List Nat

/-- The `getRetryDelay` method (source lines 123-136).  The result is an
`Except` because the method could throw; the source body contains no
throw site, so every path returns `Except.ok`.  The world is threaded to
record that the computation neither reads nor advances ambient state. -/
def AxiosRetryClient.getRetryDelay (w : World) (retryCount : Nat) (error : JsValue)
    (backoff : String) (delayFactor : Nat) : Except String Nat × World :=
  if backoff = "exponential" then
    (Except.ok (exponentialDelay retryCount error delayFactor), w)
  else if backoff = "linear" then
    (Except.ok (linearDelay delayFactor retryCount error), w)
  else
    (Except.ok delayFactor, w)

/-- A per-call `AxiosRetryClientRequestConfig` object: the optional
`retryConfig` override, the optional `'axios-retry'` property that
`_request` installs, and the remaining transport options (opaque). -/
structure CallConfig where
  retryConfig : Option RetryConfigData
  axiosRetry : Option RetryConfigData
  rest : JsValue

/-- The value handed to the `cause` option of a thrown `Error`:
either the original error value itself or the string rendering
`error.toString()` of it. -/
inductive CauseVal where
  | original (e : JsValue)
  | stringified (e : JsValue)

/-- One emitted log record: `logData(title, payload)` with a JS payload,
`logData(title, {data, config?})` as emitted by the default
`preRequestAction` hook, or a plain `console.log` line. -/
inductive LogEvent where
  | jsData (title : String) (payload : JsValue)
  | hookDump (title : String) (data : JsValue) (config : Option CallConfig)
  | line (s : String)

/-- An error thrown by the client's error handling: an
`ApiResponseError(message, status, response, cause)` or a plain
`Error`.  A plain `Error` carries its constructor argument (a string
for template-literal messages, or the raw error value for
`new Error(error)`) and its `cause` option when one was supplied. -/
inductive ThrownError where
  | apiResponseError (message : String) (status : JsValue) (respBody : JsValue)
      (cause : CauseVal)
  | jsError (messageArg : JsValue) (cause : Option CauseVal)

/-- Whether a thrown error is an `ApiResponseError`. -/
def ThrownError.isApiResponseError : ThrownError → Bool
  | .apiResponseError _ _ _ _ => true
  | _ => false

/-- The `status` field of a thrown `ApiResponseError`, if the error is one. -/
def ThrownError.statusOf : ThrownError → Option JsValue
  | .apiResponseError _ s _ _ => some s
  | _ => none

/-- The `response` (body) field of a thrown `ApiResponseError`, if the
error is one. -/
def ThrownError.bodyOf : ThrownError → Option JsValue
  | .apiResponseError _ _ b _ => some b
  | _ => none

/-- The `cause` carried by a thrown error, if any. -/
def ThrownError.causeOf : ThrownError → Option CauseVal
  | .apiResponseError _ _ _ c => some c
  | .jsError _ c => c

/-- The `handleResponseNotReceivedOrOtherError` method (source lines
381-414): request sent but no response received, or request-setup
failure.  Returns the logs emitted and the error thrown (every path of
the source throws). -/
def AxiosRetryClient.handleResponseNotReceivedOrOtherError (st : ClientState)
    (error : JsValue) (reqType : RequestType) (url : String) :
    List LogEvent × ThrownError :=
  let rq := error.get "request"
  let rts := reqType.str
  let emsg := (error.get "message").display
  if rq.truthy then
    let logs : List LogEvent :=
      (if st.debug && st.debugLevel = "verbose" then
        [LogEvent.jsData (s!"{st.name}] {rts} {url}: error.config") (error.get "config")]
      else []) ++
      (if st.debug then
        [LogEvent.jsData (s!"[{st.name}] {rts} {url} : error.request") rq]
      else [])
    (logs,
     ThrownError.jsError (JsValue.jstr (s!"[{st.name}] {rts} {url} [no response] : {emsg}"))
       (some (CauseVal.original error)))
  else
    let logs : List LogEvent :=
      if st.debug then
        if st.debugLevel = "verbose" then
          [LogEvent.jsData (s!"[{st.name}] {rts} {url} : error") error]
        else
          [LogEvent.line (s!"[{st.name}] {rts} {url} error.message : {emsg}")]
      else []
    if (error.get "message").truthy then
      (logs,
       ThrownError.jsError (JsValue.jstr (s!"[{st.name}] {rts} {url} : {emsg}"))
         (some (CauseVal.original error)))
    else
      (logs, ThrownError.jsError error none)

/-- The `errorHandler` method (source lines 336-373): classifies an error
caught around the transport dispatch.  Returns the logs emitted and the
error thrown (every path of the source throws, possibly via
`handleResponseNotReceivedOrOtherError`).  In the `ApiResponseError`
branches the `cause` argument is `error.toString ? error.toString() : error`,
i.e. the string rendering whenever the error has a callable `toString`. -/
def AxiosRetryClient.errorHandler (st : ClientState) (error : JsValue)
    (reqType : RequestType) (url : String) : List LogEvent × ThrownError :=
  let rsp := error.get "response"
  if rsp.truthy then
    let rts := reqType.str
    let logs : List LogEvent :=
      if st.debug then
        if st.debugLevel = "verbose" then
          [LogEvent.jsData (s!"[{st.name}] {rts} {url} : error.response") rsp]
        else
          [LogEvent.jsData (s!"[{st.name}] {rts} {url} : error.response.data") (rsp.get "data")]
      else []
    let status := rsp.get "status"
    let dataV := rsp.get "data"
    let msgV := dataV.get "message"
    let cause : CauseVal :=
      if error.hasToString then CauseVal.stringified error else CauseVal.original error
    let sDisp := status.display
    let mDisp := msgV.display
    if dataV.truthy && status.truthy && msgV.truthy then
      (logs,
       ThrownError.apiResponseError (s!"[{st.name}] {rts} {url} : [{sDisp}] {mDisp}")
         status dataV cause)
    else if rsp.truthy && status.truthy && dataV.truthy && !msgV.truthy then
      (logs,
       ThrownError.apiResponseError (s!"[{st.name}] {rts} {url} : [{sDisp}]")
         status dataV cause)
    else
      (logs, ThrownError.jsError error none)
  else
    AxiosRetryClient.handleResponseNotReceivedOrOtherError st error reqType url

/-- The retry-override resolution step of `_request` (source lines
146-169): when the per-call config carries a `retryConfig`, compute the
effective `axios-retry` config.  If the override carries a truthy
`backoff` or `delayFactor`, the spread `{ ...this.retryConfig,
retryDelay: closure, ...config.retryConfig }` replaces `retryDelay`
with a fresh closure over the truthy-or of override and client values
before the override's own properties are spread on top; otherwise the
plain spread `{ ...this.retryConfig, ...config.retryConfig }` is used.
The result is stored on the call config's `'axios-retry'` property. -/
def AxiosRetryClient.resolveRetry (st : ClientState) (config : CallConfig) : CallConfig :=
  match config.retryConfig with
  | none => config
  | some ov =>
    let retryConfig : RetryConfigData :=
      if truthyOptStr ov.backoff || truthyOptNum ov.delayFactor then
        mergeSpread
          { st.retryConfig with
              retryDelay := some (RetryDelayFn.overrideClosure
                (jsOrStr ov.backoff st.retryConfig.backoff)
                (jsOrNum ov.delayFactor st.retryConfig.delayFactor)) }
          ov
      else
        mergeSpread st.retryConfig ov
    { config with axiosRetry := some retryConfig }

/-- Result of a `preRequestFilter` hook: the `{ data, config }` object it
returns.  A `config` of `none` models returning `undefined`/`null` there. -/
structure FilterResult where
  data : JsValue
  config : Option CallConfig

/-- The two overridable lifecycle hooks, as a record of the functions
dispatched to at the hook call sites (a subclass may install any
functions here; the defaults are `preRequestFilterDefault` and
`preRequestActionDefault`).  The action hook's observable effect is the
list of log records it emits. -/
structure Hooks where
  filter : RequestType → String → JsValue → CallConfig → FilterResult
  action : RequestType → String → JsValue → CallConfig → List LogEvent

/-- The default `preRequestFilter` (source lines 272-281): identity,
echoing `{ data, config }` unchanged. -/
def preRequestFilterDefault : RequestType → String → JsValue → CallConfig → FilterResult :=
  fun _ _ data config => { data := data, config := some config }

/-- The default `preRequestAction` (source lines 312-325): when debug is
enabled, logs a titled dump of `{ data, config }` in verbose mode and of
`{ data }` in normal mode; otherwise a no-op. -/
def preRequestActionDefault (st : ClientState) :
    RequestType → String → JsValue → CallConfig → List LogEvent :=
  fun requestType url data config =>
    if st.debug then
      if st.debugLevel = "verbose" then
        [LogEvent.hookDump (s!"[{st.name}] {requestType.str} {url}") data (some config)]
      else
        [LogEvent.hookDump (s!"[{st.name}] {requestType.str} {url}") data none]
    else []

/-- The default hooks record of the base class. -/
def defaultHooks (st : ClientState) : Hooks :=
  { filter := preRequestFilterDefault, action := preRequestActionDefault st }

/-- One observable step of a request pipeline run: the filter hook ran,
the action hook ran, the transport dispatch was issued (with the verb,
url, the payload argument passed to the transport — `none` for the
two-argument `get`/`delete` dispatches — and the config passed), or a
log record was emitted. -/
inductive REvent where
  | filterRun
  | actionRun
  | dispatched (rt : RequestType) (url : String) (payload : Option JsValue)
      (config : CallConfig)
  | logged (l : LogEvent)

/-- Kind of a core pipeline event, ignoring log records. -/
inductive REventKind where
  | filter
  | action
  | dispatch
deriving DecidableEq, Repr

/-- Projects a pipeline event to its core kind; log records project to
`none`. -/
def REvent.kindOf : REvent → Option REventKind
  | .filterRun => some REventKind.filter
  | .actionRun => some REventKind.action
  | .dispatched _ _ _ _ => some REventKind.dispatch
  | .logged _ => none

/-- The transport collaborator (the axios instance): a verb dispatch
either returns a response value or throws an error value. -/
def Transport : Type :=
  RequestType → String → Option JsValue → CallConfig → Except JsValue JsValue

/-- The `AxiosRetryClientResponse` envelope `{ request, data }` returned
on success. -/
structure Envelope where
  request : JsValue
  data : JsValue

/-- The `_request` method (source lines 138-202): resolves the per-call
retry override onto the config, runs `preRequestFilter` (its returned
`data`/`config` replace the arguments unless nullish, per `??`), runs
`preRequestAction`, dispatches the verb to the transport, and on a
transport error classifies it through `errorHandler` (which always
throws).  Returns the emitted event trace, the outcome, and the client
state after the call (the method never writes to `this`, so the state
passes through). -/
def AxiosRetryClient._request (st : ClientState) (hooks : Hooks) (transport : Transport)
    (requestType : RequestType) (url : String) (data0 : JsValue) (config0 : CallConfig) :
    List REvent × Except ThrownError Envelope × ClientState :=
  let config1 := AxiosRetryClient.resolveRetry st config0
  let filtered := hooks.filter requestType url data0 config1
  let data1 := if filtered.data.isNullish then data0 else filtered.data
  let config2 :=
    match filtered.config with
    | some c => c
    | none => config1
  let actLogs := hooks.action requestType url data1 config2
  let payload : Option JsValue :=
    match requestType with
    | .GET => none
    | .DELETE => none
    | _ => some data1
  let pre : List REvent :=
    REvent.filterRun :: REvent.actionRun :: actLogs.map REvent.logged
      ++ [REvent.dispatched requestType url payload config2]
  let result : List REvent × Except ThrownError Envelope :=
    match transport requestType url payload config2 with
    | Except.ok rsp => (pre, Except.ok { request := rsp, data := rsp.get "data" })
    | Except.error err =>
      let handled := AxiosRetryClient.errorHandler st err requestType url
      (pre ++ handled.1.map REvent.logged, Except.error handled.2)
  (result.1, result.2, st)

/-- The `get` verb method (source lines 204-209). -/
def AxiosRetryClient.get (st : ClientState) (hooks : Hooks) (transport : Transport)
    (url : String) (config : CallConfig) :
    List REvent × Except ThrownError Envelope × ClientState :=
  AxiosRetryClient._request st hooks transport RequestType.GET url JsValue.undefined config

/-- The `post` verb method (source lines 211-217). -/
def AxiosRetryClient.post (st : ClientState) (hooks : Hooks) (transport : Transport)
    (url : String) (data : JsValue) (config : CallConfig) :
    List REvent × Except ThrownError Envelope × ClientState :=
  AxiosRetryClient._request st hooks transport RequestType.POST url data config

/-- The `put` verb method (source lines 219-225). -/
def AxiosRetryClient.put (st : ClientState) (hooks : Hooks) (transport : Transport)
    (url : String) (data : JsValue) (config : CallConfig) :
    List REvent × Except ThrownError Envelope × ClientState :=
  AxiosRetryClient._request st hooks transport RequestType.PUT url data config

/-- The `patch` verb method (source lines 227-233). -/
def AxiosRetryClient.patch (st : ClientState) (hooks : Hooks) (transport : Transport)
    (url : String) (data : JsValue) (config : CallConfig) :
    List REvent × Except ThrownError Envelope × ClientState :=
  AxiosRetryClient._request st hooks transport RequestType.PATCH url data config

/-- The `delete` verb method (source lines 235-240). -/
def AxiosRetryClient.delete (st : ClientState) (hooks : Hooks) (transport : Transport)
    (url : String) (config : CallConfig) :
    List REvent × Except ThrownError Envelope × ClientState :=
  AxiosRetryClient._request st hooks transport RequestType.DELETE url JsValue.undefined config

/-- Entry through the verb method selected by `rt` (the public call
surface; `data` is ignored by `get`/`delete`, which pass `undefined`
exactly as the source does). -/
def AxiosRetryClient.callVerb (rt : RequestType) (st : ClientState) (hooks : Hooks)
    (transport : Transport) (url : String) (data : JsValue) (config : CallConfig) :
    List REvent × Except ThrownError Envelope × ClientState :=
  match rt with
  | .GET => AxiosRetryClient.get st hooks transport url config
  | .POST => AxiosRetryClient.post st hooks transport url data config
  | .PUT => AxiosRetryClient.put st hooks transport url data config
  | .PATCH => AxiosRetryClient.patch st hooks transport url data config
  | .DELETE => AxiosRetryClient.delete st hooks transport url config

/-- The payload argument of the first transport dispatch recorded in an
event trace (`none` when no dispatch was recorded; `some none` when the
dispatch carried no payload argument). -/
def dispatchedPayload : List REvent → Option (Option JsValue)
  | [] => none
  | REvent.dispatched _ _ p _ :: _ => some p
  | REvent.filterRun :: es => dispatchedPayload es
  | REvent.actionRun :: es => dispatchedPayload es
  | REvent.logged _ :: es => dispatchedPayload es

/-- A minimal options object: only the required `baseURL`. -/
def optsSample : AxiosRetryClientOptions :=
  { baseURL := "https://api.example.com", axiosConfig := none, debug := none,
    debugLevel := none, name := none, retryConfig := none }

/-- A client constructed from the minimal options (all defaults apply:
`retries = 0`, exponential backoff, delay factor 500, debug off). -/
def stSample : ClientState :=
  (AxiosRetryClient.construct optsSample).1

/-- C5: for every attempt ≥ 1, error and delay factor, the backoff delay
is `factor * 2^(attempt-1)` under the exponential strategy,
`factor * attempt` under the linear strategy, and the constant `factor`
(independent of the attempt) under the none strategy. -/
theorem getRetryDelay_backoff_formulas (w : World) (attempt : Nat) (error : JsValue)
    (factor : Nat) (h : 1 ≤ attempt) :
    (AxiosRetryClient.getRetryDelay w attempt error "exponential" factor).1
        = Except.ok (factor * 2 ^ (attempt - 1)) ∧
    (AxiosRetryClient.getRetryDelay w attempt error "linear" factor).1
        = Except.ok (factor * attempt) ∧
    (AxiosRetryClient.getRetryDelay w attempt error "none" factor).1
        = Except.ok factor := by
  refine ⟨rfl, ?_, rfl⟩
  simp [AxiosRetryClient.getRetryDelay, linearDelay]

/-- Witness for C5 at attempt 3 and factor 500: exponential gives 2000,
linear gives 1500, none gives 500. -/
theorem getRetryDelay_backoff_formulas_witness :
    1 ≤ 3 ∧
    (AxiosRetryClient.getRetryDelay [] 3 JsValue.undefined "exponential" 500).1
        = Except.ok 2000 ∧
    (AxiosRetryClient.getRetryDelay [] 3 JsValue.undefined "linear" 500).1
        = Except.ok 1500 ∧
    (AxiosRetryClient.getRetryDelay [] 3 JsValue.undefined "none" 500).1
        = Except.ok 500 := by
  have h := getRetryDelay_backoff_formulas [] 3 JsValue.undefined 500 (by decide)
  exact ⟨by decide, h.1, h.2.1, h.2.2⟩

/-- C6: the backoff delay computation is deterministic and
side-effect-free: two invocations with the same attempt, error, strategy
and factor return the same duration whatever the ambient random stream
holds, and the stream is left untouched. -/
theorem getRetryDelay_deterministic (w₁ w₂ : World) (attempt : Nat) (error : JsValue)
    (backoff : String) (factor : Nat) :
    (AxiosRetryClient.getRetryDelay w₁ attempt error backoff factor).1
        = (AxiosRetryClient.getRetryDelay w₂ attempt error backoff factor).1 ∧
    (AxiosRetryClient.getRetryDelay w₁ attempt error backoff factor).2 = w₁ := by
  simp only [AxiosRetryClient.getRetryDelay]
  split
  · exact ⟨rfl, rfl⟩
  · split
    · exact ⟨rfl, rfl⟩
    · exact ⟨rfl, rfl⟩

/-- C9, counterexample: calling the delay computation with attempt 0 does
not raise an error; under the none strategy it silently returns the
factor (and under the delegated exponential formula it also returns a
value). -/
theorem getRetryDelay_attempt_zero_counterexample :
    (AxiosRetryClient.getRetryDelay [] 0 (JsValue.jobj []) "none" 500).1
        = Except.ok 500 ∧
    (AxiosRetryClient.getRetryDelay [] 0 (JsValue.jobj []) "exponential" 500).1
        = Except.ok 500 := by
  exact ⟨rfl, rfl⟩

/-- C9, amended: attempt 0 is not validated; for every strategy and
factor the delay computation returns a value normally rather than
raising an error. -/
theorem getRetryDelay_attempt_zero_returns (w : World) (error : JsValue)
    (backoff : String) (factor : Nat) :
    ∃ v, (AxiosRetryClient.getRetryDelay w 0 error backoff factor).1 = Except.ok v := by
  simp only [AxiosRetryClient.getRetryDelay]
  split
  · exact ⟨_, rfl⟩
  · split
    · exact ⟨_, rfl⟩
    · exact ⟨_, rfl⟩

/-- C3: when a per-call override is present, the effective policy
installed on the call's `'axios-retry'` property is the shallow
field-by-field merge of the client default and the override: a field
present in the override replaces the default value (a present `retries`
of `0` included — presence, not truthiness, decides), and a field absent
in the override keeps the default value, for each of the policy fields
`retries`, `backoff`, `delayFactor` and `onRetry`. -/
theorem resolveRetry_shallow_merge (st : ClientState) (config : CallConfig)
    (ov : RetryConfigData) (h : config.retryConfig = some ov) :
    ((AxiosRetryClient.resolveRetry st config).axiosRetry.map RetryConfigData.retries
        = some (match ov.retries with
                | some n => some n
                | none => st.retryConfig.retries)) ∧
    ((AxiosRetryClient.resolveRetry st config).axiosRetry.map RetryConfigData.backoff
        = some (match ov.backoff with
                | some b => some b
                | none => st.retryConfig.backoff)) ∧
    ((AxiosRetryClient.resolveRetry st config).axiosRetry.map RetryConfigData.delayFactor
        = some (match ov.delayFactor with
                | some d => some d
                | none => st.retryConfig.delayFactor)) ∧
    ((AxiosRetryClient.resolveRetry st config).axiosRetry.map RetryConfigData.onRetry
        = some (match ov.onRetry with
                | some f => some f
                | none => st.retryConfig.onRetry)) := by
  obtain ⟨r, rd, onr, df, b⟩ := ov
  simp only [AxiosRetryClient.resolveRetry, h]
  refine ⟨?_, ?_, ?_, ?_⟩
  · split <;> cases r <;> rfl
  · split <;> cases b <;> rfl
  · split <;> cases df <;> rfl
  · split <;> cases onr <;> rfl

/-- Witness for C3: an override carrying `retries: 0` over the sample
client's default (`retries: 0` too, but with distinct backoff) yields an
effective policy whose `retries` is `0` and whose absent fields keep the
defaults. -/
theorem resolveRetry_shallow_merge_witness :
    ((AxiosRetryClient.resolveRetry stSample
          { retryConfig := some { retries := some 0, retryDelay := none,
                                  onRetry := none, delayFactor := none,
                                  backoff := none },
            axiosRetry := none,
            rest := JsValue.jobj [] }).axiosRetry.map RetryConfigData.retries
        = some (some 0)) ∧
    ((AxiosRetryClient.resolveRetry stSample
          { retryConfig := some { retries := some 0, retryDelay := none,
                                  onRetry := none, delayFactor := none,
                                  backoff := none },
            axiosRetry := none,
            rest := JsValue.jobj [] }).axiosRetry.map RetryConfigData.backoff
        = some (some "exponential")) := by
  have h := resolveRetry_shallow_merge stSample
    { retryConfig := some { retries := some 0, retryDelay := none,
                            onRetry := none, delayFactor := none,
                            backoff := none },
      axiosRetry := none,
      rest := JsValue.jobj [] }
    { retries := some 0, retryDelay := none, onRetry := none,
      delayFactor := none, backoff := none } rfl
  exact ⟨h.1, h.2.1⟩

/-- C4: a call never mutates the client's stored default retry policy:
the client state after `_request` is the state before, in particular its
`retryConfig` field, so resolving any later per-call override against
the post-call state gives the same effective policy as against the
original state (no cross-call leakage). -/
theorem request_preserves_client_policy (st : ClientState) (hooks : Hooks)
    (transport : Transport) (rt : RequestType) (url : String) (data : JsValue)
    (config config₂ : CallConfig) :
    (AxiosRetryClient._request st hooks transport rt url data config).2.2 = st ∧
    (AxiosRetryClient._request st hooks transport rt url data config).2.2.retryConfig
        = st.retryConfig ∧
    AxiosRetryClient.resolveRetry
        ((AxiosRetryClient._request st hooks transport rt url data config).2.2) config₂
      = AxiosRetryClient.resolveRetry st config₂ := by
  exact ⟨rfl, rfl, rfl⟩

/-- C10: the constructor mutates the caller-supplied options object —
`delete config.retryConfig` runs on the caller's object before the local
rebinding, so when the options carried a `retryConfig` property the
caller's object afterwards no longer contains it (and is otherwise
unchanged), hence differs from what the caller passed in. -/
theorem construct_deletes_caller_retryConfig (opts : AxiosRetryClientOptions)
    (h : opts.retryConfig.isSome = true) :
    (AxiosRetryClient.construct opts).2 = { opts with retryConfig := none } ∧
    (AxiosRetryClient.construct opts).2.retryConfig = none ∧
    (AxiosRetryClient.construct opts).2 ≠ opts := by
  refine ⟨rfl, rfl, ?_⟩
  intro he
  have h2 := congrArg AxiosRetryClientOptions.retryConfig he
  have h3 : (none : Option RetryConfigData) = opts.retryConfig := h2
  rw [← h3] at h
  simp at h

/-- A sample options object carrying a `retryConfig` property. -/
def optsWithRetry : AxiosRetryClientOptions :=
  { baseURL := "https://api.example.com", axiosConfig := none, debug := none,
    debugLevel := none, name := some "SampleClient",
    retryConfig := some { retries := some 2, retryDelay := none, onRetry := none,
                          delayFactor := none, backoff := none } }

/-- Witness for C10: constructing from `optsWithRetry` leaves the
caller's object without its `retryConfig` property. -/
theorem construct_deletes_caller_retryConfig_witness :
    optsWithRetry.retryConfig.isSome = true ∧
    (AxiosRetryClient.construct optsWithRetry).2.retryConfig = none ∧
    (AxiosRetryClient.construct optsWithRetry).2 ≠ optsWithRetry := by
  have h := construct_deletes_caller_retryConfig optsWithRetry rfl
  exact ⟨rfl, h.2.1, h.2.2⟩

/-- Log records contribute no core pipeline events. -/
lemma filterMap_kindOf_logged (ls : List LogEvent) :
    (ls.map REvent.logged).filterMap REvent.kindOf = [] := by
  induction ls with
  | nil => rfl
  | cons a as ih => simp [REvent.kindOf, ih]

/-- Log records contribute no core pipeline events (composed form). -/
lemma filterMap_kindOf_comp_logged (ls : List LogEvent) :
    ls.filterMap (REvent.kindOf ∘ REvent.logged) = [] := by
  induction ls with
  | nil => rfl
  | cons a as ih => simp [REvent.kindOf, Function.comp, ih]

/-- Leading log records do not affect the first dispatched payload. -/
lemma dispatchedPayload_logged_append (ls : List LogEvent) (es : List REvent) :
    dispatchedPayload (ls.map REvent.logged ++ es) = dispatchedPayload es := by
  induction ls with
  | nil => rfl
  | cons a as ih => simp [dispatchedPayload, ih]

/-- C7: on every call through a verb method, the core pipeline events
are exactly one filter-hook run, then one action-hook run, then one
transport dispatch, in that order — both hooks complete strictly before
the dispatch is issued. -/
theorem verb_hook_order (rt : RequestType) (st : ClientState) (hooks : Hooks)
    (transport : Transport) (url : String) (data : JsValue) (config : CallConfig) :
    (AxiosRetryClient.callVerb rt st hooks transport url data config).1.filterMap
        REvent.kindOf
      = [REventKind.filter, REventKind.action, REventKind.dispatch] := by
  cases rt <;>
    · simp only [AxiosRetryClient.callVerb, AxiosRetryClient.get, AxiosRetryClient.post,
        AxiosRetryClient.put, AxiosRetryClient.patch, AxiosRetryClient.delete,
        AxiosRetryClient._request]
      split <;>
        simp [REvent.kindOf, filterMap_kindOf_logged, filterMap_kindOf_comp_logged,
          List.filterMap_append]

/-- C8: on every payload-carrying verb call (post/put/patch), when the
filter hook returns a non-nullish replacement payload, that replacement
— not the originally supplied payload — is the payload argument of the
transport dispatch. -/
theorem filter_replacement_dispatched (st : ClientState) (hooks : Hooks)
    (transport : Transport) (rt : RequestType) (url : String) (data : JsValue)
    (config : CallConfig)
    (hverb : rt = RequestType.POST ∨ rt = RequestType.PUT ∨ rt = RequestType.PATCH)
    (hrep : (hooks.filter rt url data
        (AxiosRetryClient.resolveRetry st config)).data.isNullish = false) :
    dispatchedPayload ((AxiosRetryClient.callVerb rt st hooks transport url data config).1)
      = some (some ((hooks.filter rt url data
          (AxiosRetryClient.resolveRetry st config)).data)) := by
  rcases hverb with h | h | h <;> subst h <;>
    · simp only [AxiosRetryClient.callVerb, AxiosRetryClient.post, AxiosRetryClient.put,
        AxiosRetryClient.patch, AxiosRetryClient._request]
      split <;>
        simp [dispatchedPayload, dispatchedPayload_logged_append, hrep]

/-- Hooks whose filter replaces the payload with the string
`"replaced"`. -/
def hooksReplacing : Hooks :=
  { filter := fun _ _ _ config => { data := JsValue.jstr "replaced", config := some config },
    action := fun _ _ _ _ => [] }

/-- A transport that always succeeds with a fixed response. -/
def transportOk : Transport :=
  fun _ _ _ _ => Except.ok (JsValue.jobj [("data", JsValue.jstr "ok")])

/-- Witness for C8: a POST whose filter hook replaces the payload with
`"replaced"` dispatches `"replaced"` to the transport. -/
theorem filter_replacement_dispatched_witness :
    (RequestType.POST = RequestType.POST ∨ RequestType.POST = RequestType.PUT ∨
        RequestType.POST = RequestType.PATCH) ∧
    (hooksReplacing.filter RequestType.POST "/w" (JsValue.jstr "orig")
        (AxiosRetryClient.resolveRetry stSample
          { retryConfig := none, axiosRetry := none,
            rest := JsValue.jobj [] })).data.isNullish = false ∧
    dispatchedPayload ((AxiosRetryClient.callVerb RequestType.POST stSample hooksReplacing
          transportOk "/w" (JsValue.jstr "orig")
          { retryConfig := none, axiosRetry := none, rest := JsValue.jobj [] }).1)
      = some (some (JsValue.jstr "replaced")) := by
  have h := filter_replacement_dispatched stSample hooksReplacing transportOk
    RequestType.POST "/w" (JsValue.jstr "orig")
    { retryConfig := none, axiosRetry := none, rest := JsValue.jobj [] }
    (Or.inl rfl) rfl
  exact ⟨Or.inl rfl, rfl, h⟩

/-- A transport error carrying a received response with status 404 but
no body (`data` absent). -/
def errNoBody : JsValue :=
  JsValue.jobj
    [("response", JsValue.jobj [("status", JsValue.jnum 404)]),
     ("message", JsValue.jstr "Request failed with status code 404")]

/-- C1, counterexample: an error whose response has a present (truthy)
status code 404 but a falsy body is not classified as
`ApiResponseError` — the handler throws a plain `Error(error)` instead. -/
theorem response_without_body_counterexample :
    ((errNoBody.get "response").get "status").truthy = true ∧
    ((AxiosRetryClient.errorHandler stSample errNoBody RequestType.GET "/missing").2).isApiResponseError
        = false ∧
    (AxiosRetryClient.errorHandler stSample errNoBody RequestType.GET "/missing").2
        = ThrownError.jsError errNoBody none := by
  exact ⟨rfl, rfl, rfl⟩

/-- C1, amended: for every failed call whose error carries a received
response with a truthy status code and a truthy body, the handler throws
an `ApiResponseError` whose status and body are copied verbatim from the
response (with or without a `message` field in the body). -/
theorem errorHandler_api_response (st : ClientState) (error : JsValue)
    (rt : RequestType) (url : String)
    (h1 : (error.get "response").truthy = true)
    (h2 : ((error.get "response").get "status").truthy = true)
    (h3 : ((error.get "response").get "data").truthy = true) :
    ((AxiosRetryClient.errorHandler st error rt url).2).isApiResponseError = true ∧
    ((AxiosRetryClient.errorHandler st error rt url).2).statusOf
        = some ((error.get "response").get "status") ∧
    ((AxiosRetryClient.errorHandler st error rt url).2).bodyOf
        = some ((error.get "response").get "data") := by
  cases hm : (((error.get "response").get "data").get "message").truthy <;>
    simp [AxiosRetryClient.errorHandler, h1, h2, h3, hm,
      ThrownError.isApiResponseError, ThrownError.statusOf, ThrownError.bodyOf]

/-- A transport error carrying a response of status 404 with body
`{message: "Not Found"}`. -/
def err404 : JsValue :=
  JsValue.jobj
    [("response", JsValue.jobj
      [("status", JsValue.jnum 404),
       ("data", JsValue.jobj [("message", JsValue.jstr "Not Found")])])]

/-- Witness for the amended C1: the 404 response with body
`{message: "Not Found"}` classifies to an `ApiResponseError` with
status 404 and that body verbatim. -/
theorem errorHandler_api_response_witness :
    ((AxiosRetryClient.errorHandler stSample err404 RequestType.GET "/nf").2).isApiResponseError
        = true ∧
    ((AxiosRetryClient.errorHandler stSample err404 RequestType.GET "/nf").2).statusOf
        = some (JsValue.jnum 404) ∧
    ((AxiosRetryClient.errorHandler stSample err404 RequestType.GET "/nf").2).bodyOf
        = some (JsValue.jobj [("message", JsValue.jstr "Not Found")]) := by
  have h := errorHandler_api_response stSample err404 RequestType.GET "/nf" rfl rfl rfl
  exact ⟨h.1, h.2.1, h.2.2⟩

/-- A transport error carrying a received response of status 500 with a
body that has a `message` field. -/
def errWithResponse : JsValue :=
  JsValue.jobj
    [("response", JsValue.jobj
      [("status", JsValue.jnum 500),
       ("data", JsValue.jobj [("message", JsValue.jstr "boom")])]),
     ("message", JsValue.jstr "Request failed with status code 500")]

/-- C2, counterexample: in the response-received path the thrown
`ApiResponseError` carries `error.toString()` — a stringification — as
its cause, not the original transport error object itself. -/
theorem cause_stringified_counterexample :
    ((AxiosRetryClient.errorHandler stSample errWithResponse RequestType.POST "/pay").2).causeOf
        = some (CauseVal.stringified errWithResponse) ∧
    some (CauseVal.stringified errWithResponse)
        ≠ some (CauseVal.original errWithResponse) := by
  refine ⟨rfl, ?_⟩
  intro hEq
  injection hEq with h2
  exact CauseVal.noConfusion h2

/-- In the no-response and request-setup paths, every thrown error that
carries a cause carries the original error object. -/
lemma handleOther_cause_original (st : ClientState) (error : JsValue)
    (rt : RequestType) (url : String) :
    ∀ marg c,
      (AxiosRetryClient.handleResponseNotReceivedOrOtherError st error rt url).2
          = ThrownError.jsError marg (some c) →
      c = CauseVal.original error := by
  intro marg c hEq
  simp only [AxiosRetryClient.handleResponseNotReceivedOrOtherError] at hEq
  split at hEq
  · injection hEq with hm hc
    injection hc with hc2
    exact hc2.symm
  · split at hEq
    · injection hEq with hm hc
      injection hc with hc2
      exact hc2.symm
    · injection hEq with hm hc
      exact Option.noConfusion hc

/-- C2, amended: a thrown error that carries a cause carries the
original error object in the no-response and request-setup paths, while
in the response-received `ApiResponseError` path the cause is the
error's string rendering `error.toString()` whenever the error has a
callable `toString` (the original object only when it lacks one). -/
theorem errorHandler_cause (st : ClientState) (error : JsValue)
    (rt : RequestType) (url : String) :
    (∀ m s b c,
      (AxiosRetryClient.errorHandler st error rt url).2
          = ThrownError.apiResponseError m s b c →
      c = (if error.hasToString then CauseVal.stringified error
           else CauseVal.original error)) ∧
    (∀ marg c,
      (AxiosRetryClient.errorHandler st error rt url).2
          = ThrownError.jsError marg (some c) →
      c = CauseVal.original error) := by
  constructor
  · intro m s b c hEq
    simp only [AxiosRetryClient.errorHandler] at hEq
    split at hEq
    · split at hEq
      · injection hEq with h1 h2 h3 h4
        exact h4.symm
      · split at hEq
        · injection hEq with h1 h2 h3 h4
          exact h4.symm
        · exact ThrownError.noConfusion hEq
    · simp only [AxiosRetryClient.handleResponseNotReceivedOrOtherError] at hEq
      split at hEq
      · exact ThrownError.noConfusion hEq
      · split at hEq <;> exact ThrownError.noConfusion hEq
  · intro marg c hEq
    simp only [AxiosRetryClient.errorHandler] at hEq
    split at hEq
    · split at hEq
      · exact ThrownError.noConfusion hEq
      · split at hEq
        · exact ThrownError.noConfusion hEq
        · injection hEq with h1 h2
          exact Option.noConfusion h2
    · exact handleOther_cause_original st error rt url marg c hEq

/-- A transport error with an outgoing request but no response. -/
def errNoResponse : JsValue :=
  JsValue.jobj
    [("request", JsValue.jobj []),
     ("message", JsValue.jstr "timeout of 5000ms exceeded")]

/-- Witness for the amended C2: a no-response error classifies to a
thrown error whose cause is the original error object. -/
theorem errorHandler_cause_witness :
    (AxiosRetryClient.errorHandler stSample errNoResponse RequestType.GET "/slow").2
        = ThrownError.jsError
            (JsValue.jstr
              "[AxiosRetryClient] GET /slow [no response] : timeout of 5000ms exceeded")
            (some (CauseVal.original errNoResponse)) ∧
    CauseVal.original errNoResponse = CauseVal.original errNoResponse := by
  have hc := (errorHandler_cause stSample errNoResponse RequestType.GET "/slow").2
    (JsValue.jstr
      "[AxiosRetryClient] GET /slow [no response] : timeout of 5000ms exceeded")
    (CauseVal.original errNoResponse) rfl
  exact ⟨rfl, hc⟩
